import Mathlib

/-!
Verification development for the bloodlink web application (app.py).

The relational store is embedded as lists of rows; SQL statements become
list operations; a request handler becomes a pure function from the form
input and the store to a result (new store, flashed messages, response).
Exceptions raised by database statements are injected through an oracle
argument (step index to optional error text); a handler that catches them
returns a HandlerResult, a handler that lets them escape returns an
Except value. Calendar dates are embedded as day counts (daysFromCivil),
matching the ordinal arithmetic of the Python datetime.date type.
-/

namespace BloodLink

/-- Day count of a proleptic Gregorian civil date, for nonnegative years
(the standard days-from-civil algorithm). The Python datetime.date type
stores an ordinal day count and timedelta addition adds to that count, so
date differences agree with differences of this function. -/
def daysFromCivil (y m d : Nat) : Nat :=
  let yy := if m ≤ 2 then y - 1 else y
  let era := yy / 400
  let yoe := yy - era * 400
  let mp := (m + 9) % 12
  let doy := (153 * mp + 2) / 5 + d - 1
  let doe := yoe * 365 + yoe / 4 - yoe / 100 + doy
  era * 146097 + doe

/-- A row of the Donors table. -/
structure Donor where
  donor_id : Nat
  first_name : String
  last_name : String
  blood_group : String
  contact_number : String
  email : String
  address : String
  date_of_birth : String
  last_donation_date : Option Int
  deriving DecidableEq

/-- A row of the Staff table. -/
structure Staff where
  staff_id : Nat
  username : String
  password_hash : String
  full_name : String
  is_admin : Bool
  secret_code : Option String
  must_change_password : Bool
  deriving DecidableEq

/-- A row of the BloodBanks table. -/
structure BloodBank where
  bank_id : Nat
  bank_name : String
  deriving DecidableEq

/-- A row of the BloodInventory table. -/
structure Bag where
  bag_id : Nat
  donor_id : Nat
  bank_id : Nat
  blood_group : String
  donation_date : Int
  expiry_date : Int
  status : String
  deriving DecidableEq

/-- A row of the Recipients table. -/
structure Recipient where
  recipient_id : Nat
  first_name : String
  last_name : String
  blood_group : String
  hospital_name : Option String
  deriving DecidableEq

/-- A row of the BloodTransfusions table. -/
structure Transfusion where
  bag_id : Nat
  recipient_id : Nat
  deriving DecidableEq

/-- The relational store. The next_* counters model the serial id
sequences of the tables. -/
structure DB where
  staff : List Staff
  donors : List Donor
  banks : List BloodBank
  inventory : List Bag
  recipients : List Recipient
  transfusions : List Transfusion
  next_staff_id : Nat
  next_donor_id : Nat
  next_bag_id : Nat
  next_recipient_id : Nat
  deriving DecidableEq

/-- The flask_login current_user seen by a handler. -/
structure UserCtx where
  id : Nat
  is_authenticated : Bool
  is_admin : Bool
  must_change_password : Bool
  deriving DecidableEq

/-- A flashed message: category (error or success) and text. -/
structure Flash where
  category : String
  message : String
  deriving DecidableEq

/-- The HTTP response of a handler: a redirect to an endpoint or a
rendered template. -/
inductive Resp where
  | redirect (endpoint : String)
  | render (template : String)
  deriving DecidableEq

/-- The outcome of a handler that terminates normally: the committed
store, the flashed messages, and the response. -/
structure HandlerResult where
  db : DB
  flashes : List Flash
  resp : Resp
  deriving DecidableEq

/-- Python truthiness of an optional form string: request.form.get gives
None when the field is absent, and both None and the empty string are
falsy. -/
def optTruthy : Option String → Bool
  | Option.none => false
  | some s => !s.isEmpty

/-- The dynamic value held by the recipient_id variable in use_blood_bag:
initially None or the form string, possibly replaced by the integer
returned by the RETURNING clause of the recipient insert. -/
inductive PyVal where
  | vnone
  | vstr (s : String)
  | vint (n : Nat)
  deriving DecidableEq

/-- Python truthiness of a PyVal: None is falsy, a string is truthy when
nonempty, an integer is truthy when nonzero. -/
def PyVal.truthy : PyVal → Bool
  | .vnone => false
  | .vstr s => !s.isEmpty
  | .vint n => n != 0

/-- Decimal parse of a string as the database parses an integer
parameter (structural recursion over the character list). -/
def pgIntOfString (s : String) : Option Nat :=
  match s.data with
  | [] => Option.none
  | cs => cs.foldl (fun acc c =>
      match acc with
      | Option.none => Option.none
      | some n =>
        let d := c.toNat
        if 48 ≤ d ∧ d ≤ 57 then some (n * 10 + (d - 48)) else Option.none)
      (some 0)

/-- Resolve the recipient value to a row id when it is used as an SQL
integer parameter; a non-numeric string makes the database statement
raise. -/
def PyVal.toId : PyVal → Except String Nat
  | .vnone => Except.error "invalid input syntax for type integer"
  | .vstr s =>
    match pgIntOfString s with
    | some n => Except.ok n
    | Option.none => Except.error "invalid input syntax for type integer"
  | .vint n => Except.ok n

/-- The recipient_id form field as first read by use_blood_bag. -/
def formRecipient : Option String → PyVal
  | Option.none => PyVal.vnone
  | some s => PyVal.vstr s

/-- before_request_callback (app.py lines 54-59): redirects an
authenticated admin with the must_change_password flag to the profile
endpoint, unless the requested endpoint is profile, logout or static.
Returns the redirect target, or none when the request proceeds. -/
def before_request_callback (user : UserCtx) (endpoint : Option String) : Option String :=
  if user.is_authenticated && user.is_admin && user.must_change_password then
    match endpoint with
    | Option.none => Option.none
    | some ep =>
      if ep ≠ "" ∧ ep ≠ "profile" ∧ ep ≠ "logout" ∧ ep ≠ "static" then some "profile"
      else Option.none
  else Option.none

/-- The login_required decorator of flask_login: an unauthenticated
request is redirected to the login view. -/
def login_required (user : UserCtx) (db : DB) (body : HandlerResult) : HandlerResult :=
  if user.is_authenticated then body
  else { db := db, flashes := [], resp := Resp.redirect "login" }

/-- The admin_required decorator (app.py lines 62-69): a non-admin is
redirected to index with a permission error. -/
def admin_required (user : UserCtx) (db : DB) (body : HandlerResult) : HandlerResult :=
  if user.is_admin then body
  else { db := db
         flashes := [{ category := "error", message := "You do not have permission to access this page." }]
         resp := Resp.redirect "index" }

/-- handle_login_attempt (app.py lines 98-133): looks up the role-scoped
staff row, checks the password hash, and never writes the store. Password
hashing is abstracted by the deterministic hashFn parameter. -/
def handle_login_attempt (hashFn : String → String) (is_admin_login : Bool)
    (username secret_code password : String) (db : DB) : HandlerResult :=
  match (if is_admin_login then
      db.staff.find? (fun s => s.username == username && s.is_admin)
    else
      db.staff.find? (fun s => s.secret_code == some secret_code && !s.is_admin)) with
  | some u =>
    if u.password_hash == hashFn password then
      { db := db, flashes := [{ category := "success", message := "Logged in successfully!" }]
        resp := Resp.redirect "index" }
    else
      { db := db, flashes := [{ category := "error", message := "Invalid credentials provided." }]
        resp := Resp.redirect "request.url" }
  | Option.none =>
    { db := db, flashes := [{ category := "error", message := "Invalid credentials provided." }]
      resp := Resp.redirect "request.url" }

/-- The form of the profile route. -/
structure ProfileForm where
  current_password : String
  new_password : String
  confirm_password : String
  deriving DecidableEq

/-- The body of the profile route (app.py lines 142-171), reached after
login_required and admin_required: on POST it checks the confirmation and
the current password, then stores the new hash and clears
must_change_password. -/
def profile_handler (hashFn : String → String) (user : UserCtx) (method : String)
    (form : ProfileForm) (db : DB) : HandlerResult :=
  if method = "POST" then
    if form.new_password ≠ form.confirm_password then
      { db := db
        flashes := [{ category := "error", message := "The new passwords do not match. Please try again." }]
        resp := Resp.redirect "profile" }
    else
      match db.staff.find? (fun s => s.staff_id == user.id) with
      | Option.none =>
        { db := db
          flashes := [{ category := "error", message := "Your current password was incorrect." }]
          resp := Resp.render "profile.html" }
      | some u =>
        if u.password_hash ≠ hashFn form.current_password then
          { db := db
            flashes := [{ category := "error", message := "Your current password was incorrect." }]
            resp := Resp.render "profile.html" }
        else
          { db := { db with staff := db.staff.map (fun s =>
              if s.staff_id == user.id then
                { s with password_hash := hashFn form.new_password, must_change_password := false }
              else s) }
            flashes := [{ category := "success", message := "Your password has been updated successfully! You now have full access." }]
            resp := Resp.redirect "index" }
  else { db := db, flashes := [], resp := Resp.render "profile.html" }

/-- The form of the add_user route. -/
structure AddUserForm where
  username : String
  password : String
  full_name : String
  secret_code : Option String
  is_admin : Bool
  deriving DecidableEq

/-- The body of the add_user route (app.py lines 186-210), reached after
login_required and admin_required: inserts a staff row with
must_change_password set to is_admin and secret_code nulled for admins.
The duplicate test models the UNIQUE constraints on username and
secret_code that the spec describes for the Staff table (the schema file
is not part of the source tree); a violation is caught and surfaced as a
flash error with rollback. -/
def add_user_handler (hashFn : String → String) (form : AddUserForm) (db : DB) : HandlerResult :=
  if db.staff.any (fun s => s.username == form.username) ||
      ((if form.is_admin then (Option.none : Option String) else form.secret_code).isSome &&
        db.staff.any (fun s =>
          s.secret_code == (if form.is_admin then (Option.none : Option String) else form.secret_code))) then
    { db := db
      flashes := [{ category := "error", message := "Error: Username or Secret Code already exists." }]
      resp := Resp.redirect "manage_users" }
  else
    { db := { db with
        staff := db.staff ++ [{ staff_id := db.next_staff_id
                                username := form.username
                                password_hash := hashFn form.password
                                full_name := form.full_name
                                is_admin := form.is_admin
                                secret_code := if form.is_admin then Option.none else form.secret_code
                                must_change_password := form.is_admin }]
        next_staff_id := db.next_staff_id + 1 }
      flashes := [{ category := "success", message := "User \"" ++ form.username ++ "\" created successfully!" }]
      resp := Resp.redirect "manage_users" }

/-- The body of the delete_user route (app.py lines 212-226), reached
after login_required and admin_required: refuses to delete the acting
account, otherwise deletes the row with the given staff_id. -/
def delete_user_handler (user : UserCtx) (staff_id : Nat) (db : DB) : HandlerResult :=
  if staff_id = user.id then
    { db := db
      flashes := [{ category := "error", message := "You cannot delete your own account." }]
      resp := Resp.redirect "manage_users" }
  else
    { db := { db with staff := db.staff.filter (fun s => !(s.staff_id == staff_id)) }
      flashes := [{ category := "success", message := "Staff user deleted successfully." }]
      resp := Resp.redirect "manage_users" }

/-- The form of the add_donor route. -/
structure DonorForm where
  first_name : String
  last_name : String
  blood_group : String
  contact_number : String
  email : String
  address : String
  date_of_birth : String
  deriving DecidableEq

/-- The add_donor route (app.py lines 282-310), reached after
login_required: admins are turned away before any work; on POST a donor
row is inserted. The duplicate test models the UNIQUE constraints on
contact number and email that the spec describes for the Donors table;
a violation is caught and surfaced as a flash error with rollback. -/
def add_donor_handler (user : UserCtx) (method : String) (form : DonorForm) (db : DB) :
    HandlerResult :=
  if user.is_admin then
    { db := db
      flashes := [{ category := "error", message := "Admins cannot perform this action." }]
      resp := Resp.redirect "index" }
  else if method = "POST" then
    if db.donors.any (fun d => d.contact_number == form.contact_number || d.email == form.email) then
      { db := db
        flashes := [{ category := "error", message := "Error: A donor with that contact number or email already exists." }]
        resp := Resp.redirect "view_donors" }
    else
      { db := { db with
          donors := db.donors ++ [{ donor_id := db.next_donor_id
                                    first_name := form.first_name
                                    last_name := form.last_name
                                    blood_group := form.blood_group
                                    contact_number := form.contact_number
                                    email := form.email
                                    address := form.address
                                    date_of_birth := form.date_of_birth
                                    last_donation_date := Option.none }]
          next_donor_id := db.next_donor_id + 1 }
        flashes := [{ category := "success", message := "Donor added successfully!" }]
        resp := Resp.redirect "view_donors" }
  else { db := db, flashes := [], resp := Resp.render "add_donor.html" }

/-- The form of the add_inventory route; the donation date arrives as a
Y-M-D string and is embedded as the parsed civil triple. -/
structure AddInvForm where
  donor_id : Nat
  bank_id : Nat
  yy : Nat
  mm : Nat
  dd : Nat
  deriving DecidableEq

/-- The add_inventory route (app.py lines 312-342), reached after
login_required: admins are turned away; on POST it computes expiry as
donation date plus 42 days, reads the blood group of the donor, inserts
the bag and updates last_donation_date of the donor, then commits. The
POST branch has NO exception handler in the source, so a raising step
(oracle) or a missing donor row (the fetchone result is None and the
subscript raises TypeError) escapes as an Except.error; nothing is
committed in that case. The inserted status Available models the column
default the spec describes. Oracle steps: 0 the donor SELECT, 1 the bag
INSERT, 2 the donor UPDATE, 3 the commit. -/
def add_inventory (oracle : Nat → Option String) (user : UserCtx) (method : String)
    (form : AddInvForm) (db : DB) : Except String HandlerResult :=
  if user.is_admin then
    Except.ok { db := db
                flashes := [{ category := "error", message := "Admins cannot perform this action." }]
                resp := Resp.redirect "index" }
  else if method = "POST" then
    let donation : Int := (daysFromCivil form.yy form.mm form.dd : Int)
    let expiry : Int := donation + 42
    match oracle 0 with
    | some e => Except.error e
    | Option.none =>
      match db.donors.find? (fun d => d.donor_id == form.donor_id) with
      | Option.none => Except.error "TypeError: NoneType object is not subscriptable"
      | some donor =>
        match oracle 1 with
        | some e => Except.error e
        | Option.none =>
          let db1 : DB := { db with
            inventory := db.inventory ++ [{ bag_id := db.next_bag_id
                                            donor_id := form.donor_id
                                            bank_id := form.bank_id
                                            blood_group := donor.blood_group
                                            donation_date := donation
                                            expiry_date := expiry
                                            status := "Available" }]
            next_bag_id := db.next_bag_id + 1 }
          match oracle 2 with
          | some e => Except.error e
          | Option.none =>
            let db2 : DB := { db1 with donors := db1.donors.map (fun (d : Donor) =>
              if d.donor_id == form.donor_id then { d with last_donation_date := some donation }
              else d) }
            match oracle 3 with
            | some e => Except.error e
            | Option.none =>
              Except.ok { db := db2
                          flashes := [{ category := "success", message := "Blood bag added to inventory!" }]
                          resp := Resp.redirect "view_inventory" }
  else Except.ok { db := db, flashes := [], resp := Resp.render "add_inventory.html" }

/-- The form of the use_blood_bag route. -/
structure UseForm where
  recipient_id : Option String
  new_recipient_first_name : Option String
  new_recipient_last_name : Option String
  new_recipient_blood_group : Option String
  new_recipient_hospital : Option String
  deriving DecidableEq

/-- The try block of use_blood_bag (app.py lines 385-401). Writes run on
a pending copy of the store; an Except.error abandons it (the except
clause of the caller rolls back), the missing-recipient early return
abandons it as well (the connection is closed without commit), and only
the final commit publishes it. Oracle steps: 0 the recipient INSERT,
1 the bag UPDATE, 2 the transfusion INSERT, 3 the commit. -/
def useBody (oracle : Nat → Option String) (bag_id : Nat) (form : UseForm) (db : DB) :
    Except String (DB × Flash) :=
  let step0 : Except String (DB × PyVal) :=
    if optTruthy form.new_recipient_first_name && optTruthy form.new_recipient_last_name
        && optTruthy form.new_recipient_blood_group then
      match oracle 0 with
      | some e => Except.error e
      | Option.none =>
        let rid := db.next_recipient_id
        Except.ok ({ db with
          recipients := db.recipients ++
            [{ recipient_id := rid
               first_name := form.new_recipient_first_name.getD ""
               last_name := form.new_recipient_last_name.getD ""
               blood_group := form.new_recipient_blood_group.getD ""
               hospital_name := form.new_recipient_hospital }]
          next_recipient_id := rid + 1 }, PyVal.vint rid)
    else Except.ok (db, formRecipient form.recipient_id)
  match step0 with
  | Except.error e => Except.error e
  | Except.ok (db1, rv) =>
    if rv.truthy then
      match oracle 1 with
      | some e => Except.error e
      | Option.none =>
        let db2 : DB := { db1 with inventory := db1.inventory.map (fun (b : Bag) =>
          if b.bag_id == bag_id then { b with status := "Used" } else b) }
        match oracle 2 with
        | some e => Except.error e
        | Option.none =>
          match rv.toId with
          | Except.error e => Except.error e
          | Except.ok rid =>
            let db3 : DB := { db2 with transfusions := db2.transfusions ++ [{ bag_id := bag_id, recipient_id := rid }] }
            match oracle 3 with
            | some e => Except.error e
            | Option.none =>
              Except.ok (db3, { category := "success", message := "Blood bag marked as used and transfusion recorded!" })
    else
      Except.ok (db, { category := "error", message := "You must select an existing recipient or enter details for a new one." })

/-- The use_blood_bag route (app.py lines 370-409), reached after
login_required: admins are turned away; otherwise the try block runs and
any exception it raises is caught, the transaction rolled back, and the
raw error text flashed. -/
def use_blood_bag (oracle : Nat → Option String) (user : UserCtx) (bag_id : Nat)
    (form : UseForm) (db : DB) : HandlerResult :=
  if user.is_admin then
    { db := db
      flashes := [{ category := "error", message := "Admins cannot perform this action." }]
      resp := Resp.redirect "view_inventory" }
  else
    match useBody oracle bag_id form db with
    | Except.ok (db1, fl) => { db := db1, flashes := [fl], resp := Resp.redirect "view_inventory" }
    | Except.error e =>
      { db := db
        flashes := [{ category := "error", message := "An error occurred: " ++ e }]
        resp := Resp.redirect "view_inventory" }

/-- The WHERE clause of the eligibility query of view_reports (app.py
line 422): last_donation_date IS NULL OR last_donation_date is at most
CURRENT_DATE minus 90 days. -/
def eligibleDonor (today : Int) (d : Donor) : Bool :=
  match d.last_donation_date with
  | Option.none => true
  | some ld => decide (ld ≤ today - 90)

/-- The eligible_donors result set of view_reports (app.py lines
411-426); the ORDER BY clause only orders the presentation and does not
change membership. -/
def view_reports_eligible (today : Int) (db : DB) : List Donor :=
  db.donors.filter (eligibleDonor today)

/-- One HTTP request to the application, carrying the route parameters
and form data of the targeted handler. -/
inductive Request where
  | login (is_admin_login : Bool) (username secret_code password : String)
  | logout
  | profile (method : String) (form : ProfileForm)
  | manage_users
  | add_user (form : AddUserForm)
  | delete_user (staff_id : Nat)
  | index
  | view_donors
  | view_donor_detail (donor_id : Nat)
  | add_donor (method : String) (form : DonorForm)
  | add_inventory (method : String) (form : AddInvForm)
  | view_inventory
  | use_blood_bag (bag_id : Nat) (form : UseForm)
  | view_reports
  deriving DecidableEq

/-- Dispatch of one request to its route handler, applying the
login_required and admin_required decorators as in the source. Handlers
that only read the store return it unchanged with a rendered template.
Only add_inventory can let an exception escape (it has no try block);
every other handler yields Except.ok. -/
def handle (oracle : Nat → Option String) (hashFn : String → String) (user : UserCtx)
    (req : Request) (db : DB) : Except String HandlerResult :=
  match req with
  | .login b u s p => Except.ok (handle_login_attempt hashFn b u s p db)
  | .logout =>
    Except.ok (login_required user db
      { db := db
        flashes := [{ category := "success", message := "You have been logged out." }]
        resp := Resp.redirect "login" })
  | .profile m f =>
    Except.ok (login_required user db (admin_required user db (profile_handler hashFn user m f db)))
  | .manage_users =>
    Except.ok (login_required user db (admin_required user db
      { db := db, flashes := [], resp := Resp.render "admin_users.html" }))
  | .add_user f =>
    Except.ok (login_required user db (admin_required user db (add_user_handler hashFn f db)))
  | .delete_user sid =>
    Except.ok (login_required user db (admin_required user db (delete_user_handler user sid db)))
  | .index =>
    Except.ok (login_required user db { db := db, flashes := [], resp := Resp.render "index.html" })
  | .view_donors =>
    Except.ok (login_required user db { db := db, flashes := [], resp := Resp.render "donors.html" })
  | .view_donor_detail _ =>
    Except.ok (login_required user db { db := db, flashes := [], resp := Resp.render "donor_detail.html" })
  | .add_donor m f =>
    Except.ok (login_required user db (add_donor_handler user m f db))
  | .add_inventory m f =>
    if user.is_authenticated then add_inventory oracle user m f db
    else Except.ok { db := db, flashes := [], resp := Resp.redirect "login" }
  | .view_inventory =>
    Except.ok (login_required user db { db := db, flashes := [], resp := Resp.render "inventory.html" })
  | .use_blood_bag bid f =>
    Except.ok (login_required user db (use_blood_bag oracle user bid f db))
  | .view_reports =>
    Except.ok (login_required user db { db := db, flashes := [], resp := Resp.render "reports.html" })

/-- The store after a request: an uncaught exception aborts the request
before the commit, so the connection is closed with the transaction
discarded and the store keeps its prior state. -/
def dbAfter (db : DB) : Except String HandlerResult → DB
  | Except.ok h => h.db
  | Except.error _ => db

/-- An oracle under which no database statement fails. -/
def noFail : Nat → Option String := fun _ => Option.none

/-- An oracle under which every database statement raises. -/
def failBoom : Nat → Option String := fun _ => some "boom"

/-- A non-admin staff user context. -/
def staffUser : UserCtx := { id := 2, is_authenticated := true, is_admin := false, must_change_password := false }

/-- An admin user context. -/
def adminUser : UserCtx := { id := 1, is_authenticated := true, is_admin := true, must_change_password := false }

/-- A concrete store: one available bag, one recipient, two staff rows. -/
def db0 : DB :=
  { staff := [{ staff_id := 1, username := "admin", password_hash := "h1", full_name := "Admin User",
                is_admin := true, secret_code := Option.none, must_change_password := false },
              { staff_id := 2, username := "staff", password_hash := "h2", full_name := "Staff User",
                is_admin := false, secret_code := some "CODE", must_change_password := false }]
    donors := [{ donor_id := 1, first_name := "Jo", last_name := "Ng", blood_group := "O+",
                 contact_number := "123", email := "jo@example.com", address := "addr",
                 date_of_birth := "1990-01-01", last_donation_date := Option.none }]
    banks := [{ bank_id := 1, bank_name := "Central" }]
    inventory := [{ bag_id := 1, donor_id := 1, bank_id := 1, blood_group := "O+",
                    donation_date := 0, expiry_date := 42, status := "Available" }]
    recipients := [{ recipient_id := 1, first_name := "Ann", last_name := "Lee",
                     blood_group := "O+", hospital_name := Option.none }]
    transfusions := []
    next_staff_id := 3
    next_donor_id := 2
    next_bag_id := 2
    next_recipient_id := 2 }

/-- A use_blood_bag form selecting the existing recipient 1. -/
def useFormExisting : UseForm :=
  { recipient_id := some "1", new_recipient_first_name := Option.none,
    new_recipient_last_name := Option.none, new_recipient_blood_group := Option.none,
    new_recipient_hospital := Option.none }

/-- A use_blood_bag form with all new-recipient fields filled. -/
def useFormNew : UseForm :=
  { recipient_id := Option.none, new_recipient_first_name := some "Bea",
    new_recipient_last_name := some "Cruz", new_recipient_blood_group := some "A+",
    new_recipient_hospital := some "City" }

/-- A use_blood_bag form with nothing supplied. -/
def useFormEmpty : UseForm :=
  { recipient_id := Option.none, new_recipient_first_name := Option.none,
    new_recipient_last_name := Option.none, new_recipient_blood_group := Option.none,
    new_recipient_hospital := Option.none }

/-- A concrete add_inventory form for donor 1 at bank 1 on 2025-01-01. -/
def invForm0 : AddInvForm := { donor_id := 1, bank_id := 1, yy := 2025, mm := 1, dd := 1 }

/-- An add_inventory form naming a donor id that has no row. -/
def invFormMissing : AddInvForm := { donor_id := 99, bank_id := 1, yy := 2025, mm := 1, dd := 1 }

/-- The identity used as the abstract password hash in witnesses. -/
def idHash : String → String := fun s => s

/-- A concrete profile form. -/
def profForm0 : ProfileForm := { current_password := "a", new_password := "b", confirm_password := "b" }

/-- A concrete donor form. -/
def donorForm0 : DonorForm :=
  { first_name := "Max", last_name := "Paz", blood_group := "B+", contact_number := "555",
    email := "max@example.com", address := "street", date_of_birth := "1991-02-03" }

/-- A concrete non-admin add_user form. -/
def newStaffForm : AddUserForm :=
  { username := "nurse", password := "pw", full_name := "Nurse Kay",
    secret_code := some "SC2", is_admin := false }

/-- An admin user context that still carries the forced-password-change
flag. -/
def mustChangeAdmin : UserCtx :=
  { id := 1, is_authenticated := true, is_admin := true, must_change_password := true }

/-- Truthiness of the recipient value read from the form agrees with the
truthiness of the form field. -/
theorem truthy_formRecipient (o : Option String) : (formRecipient o).truthy = optTruthy o := by
  cases o <;> rfl

/-- Every Except.ok outcome of the use_blood_bag try block either leaves
the store unchanged (the missing-recipient early return) or commits
exactly the marked bag and one appended transfusion row, with the staff,
donor and bank tables untouched. -/
theorem useBody_ok_cases (oracle : Nat → Option String) (bid : Nat) (form : UseForm)
    (db db1 : DB) (fl : Flash)
    (h : useBody oracle bid form db = Except.ok (db1, fl)) :
    db1 = db ∨
    ∃ rid : Nat,
      db1.staff = db.staff ∧ db1.donors = db.donors ∧ db1.banks = db.banks ∧
      db1.inventory = db.inventory.map (fun b =>
        if b.bag_id == bid then { b with status := "Used" } else b) ∧
      db1.transfusions = db.transfusions ++ [{ bag_id := bid, recipient_id := rid }] := by
  unfold useBody at h
  by_cases hc : (optTruthy form.new_recipient_first_name && optTruthy form.new_recipient_last_name
      && optTruthy form.new_recipient_blood_group) = true
  · simp only [hc, if_true] at h
    cases h0 : oracle 0 with
    | some e => rw [h0] at h; simp at h
    | none =>
      rw [h0] at h
      simp only [] at h
      by_cases hr : (PyVal.vint db.next_recipient_id).truthy = true
      · simp only [hr, if_true] at h
        cases h1 : oracle 1 with
        | some e => rw [h1] at h; simp at h
        | none =>
          rw [h1] at h
          cases h2 : oracle 2 with
          | some e => rw [h2] at h; simp at h
          | none =>
            rw [h2] at h
            simp only [PyVal.toId] at h
            cases h3 : oracle 3 with
            | some e => rw [h3] at h; simp at h
            | none =>
              rw [h3] at h
              simp only [Except.ok.injEq, Prod.mk.injEq] at h
              obtain ⟨hdb, hfl⟩ := h
              subst hdb
              right
              exact ⟨db.next_recipient_id, rfl, rfl, rfl, rfl, rfl⟩
      · simp only [Bool.not_eq_true] at hr
        rw [hr] at h
        simp only [Bool.false_eq_true, if_false, Except.ok.injEq, Prod.mk.injEq] at h
        left
        exact h.1.symm
  · simp only [Bool.not_eq_true] at hc
    simp only [hc, Bool.false_eq_true, if_false] at h
    by_cases hr : (formRecipient form.recipient_id).truthy = true
    · simp only [hr, if_true] at h
      cases h1 : oracle 1 with
      | some e => rw [h1] at h; simp at h
      | none =>
        rw [h1] at h
        cases h2 : oracle 2 with
        | some e => rw [h2] at h; simp at h
        | none =>
          rw [h2] at h
          cases hid : (formRecipient form.recipient_id).toId with
          | error e => rw [hid] at h; simp at h
          | ok rid =>
            rw [hid] at h
            cases h3 : oracle 3 with
            | some e => rw [h3] at h; simp at h
            | none =>
              rw [h3] at h
              simp only [Except.ok.injEq, Prod.mk.injEq] at h
              obtain ⟨hdb, hfl⟩ := h
              subst hdb
              right
              exact ⟨rid, rfl, rfl, rfl, rfl, rfl⟩
    · simp only [Bool.not_eq_true] at hr
      rw [hr] at h
      simp only [Bool.false_eq_true, if_false, Except.ok.injEq, Prod.mk.injEq] at h
      left
      exact h.1.symm

/-- Claim C2: in use_blood_bag the three writes are atomic. Whenever any
step of the try block raises, the except clause rolls everything back and
the store is unchanged; and when neither new-recipient fields nor an
existing recipient id are supplied, the request fails with the
user-visible missing-recipient error and commits nothing. -/
theorem c2_use_blood_bag_atomic (oracle : Nat → Option String) (user : UserCtx)
    (bid : Nat) (form : UseForm) (db : DB)
    (hadmin : user.is_admin = false) :
    (∀ e, useBody oracle bid form db = Except.error e →
      (use_blood_bag oracle user bid form db).db = db) ∧
    ((optTruthy form.new_recipient_first_name && optTruthy form.new_recipient_last_name
        && optTruthy form.new_recipient_blood_group) = false →
      optTruthy form.recipient_id = false →
      use_blood_bag oracle user bid form db =
        { db := db
          flashes := [{ category := "error", message := "You must select an existing recipient or enter details for a new one." }]
          resp := Resp.redirect "view_inventory" }) := by
  constructor
  · intro e he
    unfold use_blood_bag
    simp [hadmin, he]
  · intro h1 h2
    have hb : useBody oracle bid form db =
        Except.ok (db, { category := "error", message := "You must select an existing recipient or enter details for a new one." }) := by
      unfold useBody
      rw [h1]
      simp only [Bool.false_eq_true, if_false]
      rw [truthy_formRecipient, h2]
      simp
    unfold use_blood_bag
    simp [hadmin, hb]

/-- Claim C2 witness: concrete instances of both conjuncts, with every
database step raising for the first and an empty form for the second. -/
theorem c2_witness :
    (use_blood_bag failBoom staffUser 1 useFormNew db0).db = db0 ∧
    use_blood_bag noFail staffUser 1 useFormEmpty db0 =
      { db := db0
        flashes := [{ category := "error", message := "You must select an existing recipient or enter details for a new one." }]
        resp := Resp.redirect "view_inventory" } :=
  ⟨(c2_use_blood_bag_atomic failBoom staffUser 1 useFormNew db0 rfl).1 "boom" rfl,
   (c2_use_blood_bag_atomic noFail staffUser 1 useFormEmpty db0 rfl).2 rfl rfl⟩

/-- Claim C3: a successful add_inventory POST appends exactly one bag
whose expiry date is the donation date plus 42 days, sets the
last_donation_date of the donor to the donation date, and in particular
2025-01-01 plus 42 days is 2025-02-12. -/
theorem c3_add_inventory_expiry (oracle : Nat → Option String) (user : UserCtx)
    (form : AddInvForm) (db : DB) (donor : Donor)
    (hadmin : user.is_admin = false)
    (hok : ∀ k, oracle k = Option.none)
    (hfind : db.donors.find? (fun d => d.donor_id == form.donor_id) = some donor) :
    (dbAfter db (add_inventory oracle user "POST" form db)).inventory =
      db.inventory ++ [{ bag_id := db.next_bag_id
                         donor_id := form.donor_id
                         bank_id := form.bank_id
                         blood_group := donor.blood_group
                         donation_date := (daysFromCivil form.yy form.mm form.dd : Int)
                         expiry_date := (daysFromCivil form.yy form.mm form.dd : Int) + 42
                         status := "Available" }] ∧
    (∀ d ∈ (dbAfter db (add_inventory oracle user "POST" form db)).donors,
        d.donor_id = form.donor_id →
        d.last_donation_date = some (daysFromCivil form.yy form.mm form.dd : Int)) ∧
    daysFromCivil 2025 1 1 + 42 = daysFromCivil 2025 2 12 := by
  have hred : add_inventory oracle user "POST" form db =
      Except.ok
        { db := { db with
            inventory := db.inventory ++ [{ bag_id := db.next_bag_id
                                            donor_id := form.donor_id
                                            bank_id := form.bank_id
                                            blood_group := donor.blood_group
                                            donation_date := (daysFromCivil form.yy form.mm form.dd : Int)
                                            expiry_date := (daysFromCivil form.yy form.mm form.dd : Int) + 42
                                            status := "Available" }]
            next_bag_id := db.next_bag_id + 1
            donors := db.donors.map (fun (d : Donor) =>
              if d.donor_id == form.donor_id then
                { d with last_donation_date := some (daysFromCivil form.yy form.mm form.dd : Int) }
              else d) }
          flashes := [{ category := "success", message := "Blood bag added to inventory!" }]
          resp := Resp.redirect "view_inventory" } := by
    unfold add_inventory
    rw [hok 0, hok 1, hok 2, hok 3, hfind]
    simp [hadmin]
  refine ⟨?_, ?_, by decide⟩
  · rw [hred]; rfl
  · rw [hred]
    intro d hd hid
    obtain ⟨d0, hd0, rfl⟩ := List.mem_map.1 hd
    by_cases he : (d0.donor_id == form.donor_id) = true
    · simp only [he, if_true]
    · simp only [he, Bool.false_eq_true, if_false] at hid ⊢
      exact absurd hid (by simpa using he)

/-- Claim C3 witness: the concrete store db0 with donor 1 and the
2025-01-01 donation form. -/
theorem c3_witness :
    (dbAfter db0 (add_inventory noFail staffUser "POST" invForm0 db0)).inventory =
      db0.inventory ++ [{ bag_id := db0.next_bag_id
                          donor_id := invForm0.donor_id
                          bank_id := invForm0.bank_id
                          blood_group := "O+"
                          donation_date := (daysFromCivil invForm0.yy invForm0.mm invForm0.dd : Int)
                          expiry_date := (daysFromCivil invForm0.yy invForm0.mm invForm0.dd : Int) + 42
                          status := "Available" }] ∧
    (∀ d ∈ (dbAfter db0 (add_inventory noFail staffUser "POST" invForm0 db0)).donors,
        d.donor_id = invForm0.donor_id →
        d.last_donation_date = some (daysFromCivil invForm0.yy invForm0.mm invForm0.dd : Int)) ∧
    daysFromCivil 2025 1 1 + 42 = daysFromCivil 2025 2 12 :=
  c3_add_inventory_expiry noFail staffUser invForm0 db0
    { donor_id := 1, first_name := "Jo", last_name := "Ng", blood_group := "O+",
      contact_number := "123", email := "jo@example.com", address := "addr",
      date_of_birth := "1990-01-01", last_donation_date := Option.none }
    rfl (fun _ => rfl) rfl

/-- Claim C4 counterexample: the gate (app.py line 56) only fires for
admins and also exempts the static endpoint, so an authenticated
non-admin with the must_change_password flag requesting index is not
redirected, and neither is an admin with the flag requesting static,
although both endpoints differ from profile and logout. -/
theorem c4_counterexample :
    before_request_callback
      { id := 7, is_authenticated := true, is_admin := false, must_change_password := true }
      (some "index") = Option.none ∧
    before_request_callback
      { id := 1, is_authenticated := true, is_admin := true, must_change_password := true }
      (some "static") = Option.none ∧
    "index" ≠ "profile" ∧ "index" ≠ "logout" ∧ "static" ≠ "profile" ∧ "static" ≠ "logout" := by
  refine ⟨rfl, rfl, ?_, ?_, ?_, ?_⟩ <;> decide

/-- Claim C4 as amended: for every authenticated admin whose
must_change_password flag is set, every request to a non-empty endpoint
other than profile, logout and static is redirected to the profile
password-change form. -/
theorem c4_amended_redirect (user : UserCtx) (ep : String)
    (hauth : user.is_authenticated = true) (hadm : user.is_admin = true)
    (hmust : user.must_change_password = true)
    (h1 : ep ≠ "") (h2 : ep ≠ "profile") (h3 : ep ≠ "logout") (h4 : ep ≠ "static") :
    before_request_callback user (some ep) = some "profile" := by
  unfold before_request_callback
  simp [hauth, hadm, hmust, h1, h2, h3, h4]

/-- Claim C4 witness: the flagged admin requesting the index endpoint is
redirected to profile. -/
theorem c4_witness : before_request_callback mustChangeAdmin (some "index") = some "profile" :=
  c4_amended_redirect mustChangeAdmin "index" rfl rfl rfl
    (by decide) (by decide) (by decide) (by decide)

/-- Claim C5 counterexample: add_inventory performs a multi-step write
with no exception handler, so a POST naming a donor id with no row makes
the handler raise an uncaught TypeError instead of catching and
reporting it. -/
theorem c5_counterexample :
    add_inventory noFail staffUser "POST" invFormMissing db0 =
      Except.error "TypeError: NoneType object is not subscriptable" := rfl

/-- Claim C5 as amended: use_blood_bag catches any exception raised
during its writes, rolls the transaction back and flashes the raw error
text; add_inventory has no exception handler, so a failing step or a
missing donor row escapes the handler uncaught. -/
theorem c5_amended_error_handling (oracle1 oracle2 : Nat → Option String) (user : UserCtx)
    (bid : Nat) (uform : UseForm) (aform : AddInvForm) (db : DB) (e : String)
    (hadmin : user.is_admin = false) :
    (useBody oracle1 bid uform db = Except.error e →
      use_blood_bag oracle1 user bid uform db =
        { db := db
          flashes := [{ category := "error", message := "An error occurred: " ++ e }]
          resp := Resp.redirect "view_inventory" }) ∧
    ((∀ k, oracle2 k = Option.none) →
      db.donors.find? (fun d => d.donor_id == aform.donor_id) = Option.none →
      add_inventory oracle2 user "POST" aform db =
        Except.error "TypeError: NoneType object is not subscriptable") := by
  constructor
  · intro he
    unfold use_blood_bag
    simp [hadmin, he]
  · intro hk hfind
    unfold add_inventory
    rw [hk 0, hfind]
    simp [hadmin]

/-- Claim C5 witness: concrete instances of both conjuncts. -/
theorem c5_witness :
    use_blood_bag failBoom staffUser 1 useFormNew db0 =
      { db := db0
        flashes := [{ category := "error", message := "An error occurred: boom" }]
        resp := Resp.redirect "view_inventory" } ∧
    add_inventory noFail staffUser "POST" invFormMissing db0 =
      Except.error "TypeError: NoneType object is not subscriptable" :=
  ⟨(c5_amended_error_handling failBoom noFail staffUser 1 useFormNew invFormMissing db0 "boom" rfl).1 rfl,
   (c5_amended_error_handling failBoom noFail staffUser 1 useFormNew invFormMissing db0 "boom" rfl).2
     (fun _ => rfl) rfl⟩

/-- The invariant relating bag status to transfusion rows: a bag is Used
exactly when at least one transfusion row references it. -/
def bagTransInv (db : DB) : Prop :=
  ∀ b ∈ db.inventory, (b.status = "Used" ↔ ∃ t ∈ db.transfusions, t.bag_id = b.bag_id)

/-- Claim C1 counterexample: use_blood_bag never checks the current
status of the bag, so two successive calls on bag 1 leave it Used with
TWO transfusion rows referencing it, refuting the exactly-once claim. -/
theorem c1_counterexample :
    ((use_blood_bag noFail staffUser 1 useFormExisting
        (use_blood_bag noFail staffUser 1 useFormExisting db0).db).db.transfusions.filter
      (fun t => t.bag_id == 1)).length = 2 ∧
    ∀ b ∈ (use_blood_bag noFail staffUser 1 useFormExisting
        (use_blood_bag noFail staffUser 1 useFormExisting db0).db).db.inventory,
      b.bag_id = 1 → b.status = "Used" := by
  constructor
  · rfl
  · decide

/-- Claim C1 as amended: use_blood_bag preserves the weaker invariant
that a bag is Used exactly when AT LEAST one transfusion row references
it; a transfusion insert and the Used update are committed together, but
repeated calls on the same bag append further transfusion rows. -/
theorem c1_amended_used_iff_referenced (oracle : Nat → Option String) (user : UserCtx)
    (bid : Nat) (form : UseForm) (db : DB)
    (hinv : bagTransInv db) :
    bagTransInv (use_blood_bag oracle user bid form db).db := by
  unfold use_blood_bag
  by_cases hadm : user.is_admin = true
  · simpa [hadm] using hinv
  · simp only [Bool.not_eq_true] at hadm
    cases hub : useBody oracle bid form db with
    | error e => simpa [hadm, hub] using hinv
    | ok p =>
      obtain ⟨db1, fl⟩ := p
      simp only [hadm, Bool.false_eq_true, if_false, hub]
      rcases useBody_ok_cases oracle bid form db db1 fl hub with heq | ⟨rid, _, _, _, hi, ht⟩
      · subst heq; exact hinv
      · intro b hbmem
        rw [hi] at hbmem
        obtain ⟨b0, hb0, rfl⟩ := List.mem_map.1 hbmem
        rw [ht]
        by_cases he : (b0.bag_id == bid) = true
        · have he' : b0.bag_id = bid := by simpa using he
          rw [if_pos he]
          apply iff_of_true rfl
          exact ⟨{ bag_id := bid, recipient_id := rid }, by simp, he'.symm⟩
        · rw [if_neg he]
          have hne : b0.bag_id ≠ bid := by simpa using he
          constructor
          · intro hs
            obtain ⟨t, htm, hte⟩ := (hinv b0 hb0).1 hs
            exact ⟨t, List.mem_append_left _ htm, hte⟩
          · rintro ⟨t, htm, hte⟩
            rcases List.mem_append.1 htm with hm | hm
            · exact (hinv b0 hb0).2 ⟨t, hm, hte⟩
            · simp only [List.mem_singleton] at hm
              subst hm
              exact absurd hte.symm hne

/-- Claim C1 witness: the invariant holds of db0 and is preserved by a
concrete use_blood_bag call. -/
theorem c1_witness : bagTransInv (use_blood_bag noFail staffUser 1 useFormExisting db0).db :=
  c1_amended_used_iff_referenced noFail staffUser 1 useFormExisting db0
    (by unfold bagTransInv; decide)

/-- Claim C6: the eligibility report of view_reports contains exactly
the donors with no donation history or whose last donation is at least
90 days before the current date. -/
theorem c6_eligibility (today : Int) (db : DB) (d : Donor) :
    d ∈ view_reports_eligible today db ↔
      d ∈ db.donors ∧
        (d.last_donation_date = Option.none ∨
          ∃ ld : Int, d.last_donation_date = some ld ∧ 90 ≤ today - ld) := by
  unfold view_reports_eligible
  rw [List.mem_filter]
  refine and_congr_right fun _ => ?_
  unfold eligibleDonor
  cases hld : d.last_donation_date with
  | none => simp [hld]
  | some ld =>
    simp only [hld, decide_eq_true_eq, Option.some.injEq, reduceCtorEq, false_or]
    constructor
    · intro h
      exact ⟨ld, rfl, by omega⟩
    · rintro ⟨ld2, hld2, h90⟩
      subst hld2
      omega

/-- Claim C7: an authenticated admin deleting the acting account gets
the user-visible refusal with the store unchanged; any other staff_id is
deleted from the Staff table. -/
theorem c7_delete_user (oracle : Nat → Option String) (hashFn : String → String)
    (user : UserCtx) (sid : Nat) (db : DB)
    (hauth : user.is_authenticated = true) (hadm : user.is_admin = true) :
    (sid = user.id →
      handle oracle hashFn user (Request.delete_user sid) db =
        Except.ok { db := db
                    flashes := [{ category := "error", message := "You cannot delete your own account." }]
                    resp := Resp.redirect "manage_users" }) ∧
    (sid ≠ user.id →
      handle oracle hashFn user (Request.delete_user sid) db =
        Except.ok { db := { db with staff := db.staff.filter (fun s => !(s.staff_id == sid)) }
                    flashes := [{ category := "success", message := "Staff user deleted successfully." }]
                    resp := Resp.redirect "manage_users" }) := by
  unfold handle login_required admin_required delete_user_handler
  constructor
  · intro h
    simp [hauth, hadm, h]
  · intro h
    simp [hauth, hadm, h]

/-- Claim C7 witness: admin 1 cannot delete staff row 1, and deleting
staff row 2 removes exactly that row. -/
theorem c7_witness :
    handle noFail idHash adminUser (Request.delete_user 1) db0 =
      Except.ok { db := db0
                  flashes := [{ category := "error", message := "You cannot delete your own account." }]
                  resp := Resp.redirect "manage_users" } ∧
    handle noFail idHash adminUser (Request.delete_user 2) db0 =
      Except.ok { db := { db0 with staff := db0.staff.filter (fun s => !(s.staff_id == 2)) }
                  flashes := [{ category := "success", message := "Staff user deleted successfully." }]
                  resp := Resp.redirect "manage_users" } :=
  ⟨(c7_delete_user noFail idHash adminUser 1 db0 rfl rfl).1 rfl,
   (c7_delete_user noFail idHash adminUser 2 db0 rfl rfl).2 (by decide)⟩

/-- Claim C8: for an admin user, add_donor, add_inventory and
use_blood_bag each leave the store untouched and immediately redirect
with the admin refusal flash. -/
theorem c8_admin_blocked (oracle : Nat → Option String) (user : UserCtx) (m : String)
    (dform : DonorForm) (aform : AddInvForm) (bid : Nat) (uform : UseForm) (db : DB)
    (hadm : user.is_admin = true) :
    add_donor_handler user m dform db =
      { db := db
        flashes := [{ category := "error", message := "Admins cannot perform this action." }]
        resp := Resp.redirect "index" } ∧
    add_inventory oracle user m aform db =
      Except.ok { db := db
                  flashes := [{ category := "error", message := "Admins cannot perform this action." }]
                  resp := Resp.redirect "index" } ∧
    use_blood_bag oracle user bid uform db =
      { db := db
        flashes := [{ category := "error", message := "Admins cannot perform this action." }]
        resp := Resp.redirect "view_inventory" } := by
  unfold add_donor_handler add_inventory use_blood_bag
  simp [hadm]

/-- Claim C8 witness: the three handlers at concrete admin inputs. -/
theorem c8_witness :
    add_donor_handler adminUser "POST" donorForm0 db0 =
      { db := db0
        flashes := [{ category := "error", message := "Admins cannot perform this action." }]
        resp := Resp.redirect "index" } ∧
    add_inventory noFail adminUser "POST" invForm0 db0 =
      Except.ok { db := db0
                  flashes := [{ category := "error", message := "Admins cannot perform this action." }]
                  resp := Resp.redirect "index" } ∧
    use_blood_bag noFail adminUser 1 useFormExisting db0 =
      { db := db0
        flashes := [{ category := "error", message := "Admins cannot perform this action." }]
        resp := Resp.redirect "view_inventory" } :=
  c8_admin_blocked noFail adminUser "POST" donorForm0 invForm0 1 useFormExisting db0 rfl

/-- A login attempt never writes the store. -/
theorem handle_login_attempt_db (hashFn : String → String) (b : Bool)
    (u s p : String) (db : DB) : (handle_login_attempt hashFn b u s p db).db = db := by
  unfold handle_login_attempt
  split
  · split <;> rfl
  · rfl

/-- add_donor only ever touches the Donors table. -/
theorem add_donor_handler_staff (user : UserCtx) (m : String) (form : DonorForm) (db : DB) :
    (add_donor_handler user m form db).db.staff = db.staff := by
  unfold add_donor_handler
  split
  · rfl
  · split
    · split <;> rfl
    · rfl

/-- Every Except.ok outcome of add_inventory keeps the Staff table. -/
theorem add_inventory_ok_staff (oracle : Nat → Option String) (user : UserCtx) (m : String)
    (form : AddInvForm) (db : DB) (h : HandlerResult)
    (hres : add_inventory oracle user m form db = Except.ok h) : h.db.staff = db.staff := by
  unfold add_inventory at hres
  by_cases hadm : user.is_admin = true
  · rw [if_pos hadm] at hres
    simp only [Except.ok.injEq] at hres
    subst hres
    rfl
  · rw [if_neg hadm] at hres
    by_cases hm : m = "POST"
    · rw [if_pos hm] at hres
      cases h0 : oracle 0 with
      | some e => rw [h0] at hres; simp at hres
      | none =>
        rw [h0] at hres
        cases hf : db.donors.find? (fun d => d.donor_id == form.donor_id) with
        | none => rw [hf] at hres; simp at hres
        | some donor =>
          rw [hf] at hres
          cases h1 : oracle 1 with
          | some e => rw [h1] at hres; simp at hres
          | none =>
            rw [h1] at hres
            cases h2 : oracle 2 with
            | some e => rw [h2] at hres; simp at hres
            | none =>
              rw [h2] at hres
              cases h3 : oracle 3 with
              | some e => rw [h3] at hres; simp at hres
              | none =>
                rw [h3] at hres
                simp only [Except.ok.injEq] at hres
                subst hres
                rfl
    · rw [if_neg hm] at hres
      simp only [Except.ok.injEq] at hres
      subst hres
      rfl

/-- add_inventory only ever touches the BloodInventory and Donors
tables; when it raises, nothing is committed at all. -/
theorem add_inventory_staff (oracle : Nat → Option String) (user : UserCtx) (m : String)
    (form : AddInvForm) (db : DB) :
    (dbAfter db (add_inventory oracle user m form db)).staff = db.staff := by
  cases hres : add_inventory oracle user m form db with
  | error e => rfl
  | ok h =>
    simp only [dbAfter]
    exact add_inventory_ok_staff oracle user m form db h hres

/-- use_blood_bag only ever touches the Recipients, BloodInventory and
BloodTransfusions tables. -/
theorem use_blood_bag_staff (oracle : Nat → Option String) (user : UserCtx) (bid : Nat)
    (form : UseForm) (db : DB) :
    (use_blood_bag oracle user bid form db).db.staff = db.staff := by
  unfold use_blood_bag
  by_cases hadm : user.is_admin = true
  · simp [hadm]
  · simp only [Bool.not_eq_true] at hadm
    cases hub : useBody oracle bid form db with
    | error e => simp [hadm, hub]
    | ok p =>
      obtain ⟨db1, fl⟩ := p
      simp only [hadm, Bool.false_eq_true, if_false, hub]
      rcases useBody_ok_cases oracle bid form db db1 fl hub with heq | ⟨_, hs, _⟩
      · rw [heq]
      · exact hs

/-- Claim C9: the profile route, the only password-change form, is
wrapped in admin_required, so an authenticated non-admin requesting it is
redirected to index with the permission error; and no request a
non-admin can make ever changes the Staff table, so a non-admin staff
account can never change its own password through the application. -/
theorem c9_profile_admin_only (oracle : Nat → Option String) (hashFn : String → String)
    (user : UserCtx) (m : String) (pform : ProfileForm) (db : DB)
    (hauth : user.is_authenticated = true) (hadm : user.is_admin = false) :
    handle oracle hashFn user (Request.profile m pform) db =
      Except.ok { db := db
                  flashes := [{ category := "error", message := "You do not have permission to access this page." }]
                  resp := Resp.redirect "index" } ∧
    (∀ req : Request, (dbAfter db (handle oracle hashFn user req db)).staff = db.staff) := by
  constructor
  · unfold handle login_required admin_required
    simp [hauth, hadm]
  · intro req
    cases req with
    | login b u s p =>
      simp only [handle, dbAfter]
      rw [handle_login_attempt_db hashFn b u s p db]
    | logout => simp [handle, dbAfter, login_required, hauth]
    | profile m2 f2 => simp [handle, dbAfter, login_required, admin_required, hauth, hadm]
    | manage_users => simp [handle, dbAfter, login_required, admin_required, hauth, hadm]
    | add_user f2 => simp [handle, dbAfter, login_required, admin_required, hauth, hadm]
    | delete_user sid => simp [handle, dbAfter, login_required, admin_required, hauth, hadm]
    | index => simp [handle, dbAfter, login_required, hauth]
    | view_donors => simp [handle, dbAfter, login_required, hauth]
    | view_donor_detail i => simp [handle, dbAfter, login_required, hauth]
    | add_donor m2 f2 =>
      simp only [handle, dbAfter, login_required, hauth, if_true]
      exact add_donor_handler_staff user m2 f2 db
    | add_inventory m2 f2 =>
      simp only [handle, hauth, if_true]
      exact add_inventory_staff oracle user m2 f2 db
    | view_inventory => simp [handle, dbAfter, login_required, hauth]
    | use_blood_bag bid f2 =>
      simp only [handle, dbAfter, login_required, hauth, if_true]
      exact use_blood_bag_staff oracle user bid f2 db
    | view_reports => simp [handle, dbAfter, login_required, hauth]

/-- Claim C9 witness: the non-admin staff user is turned away from
profile on db0, and a concrete request leaves the Staff table unchanged. -/
theorem c9_witness :
    handle noFail idHash staffUser (Request.profile "POST" profForm0) db0 =
      Except.ok { db := db0
                  flashes := [{ category := "error", message := "You do not have permission to access this page." }]
                  resp := Resp.redirect "index" } ∧
    (dbAfter db0 (handle noFail idHash staffUser
      (Request.use_blood_bag 1 useFormExisting) db0)).staff = db0.staff :=
  ⟨(c9_profile_admin_only noFail idHash staffUser "POST" profForm0 db0 rfl rfl).1,
   (c9_profile_admin_only noFail idHash staffUser "POST" profForm0 db0 rfl rfl).2
     (Request.use_blood_bag 1 useFormExisting)⟩

/-- Claim C10: the staff row created by add_user has
must_change_password set exactly when the account is an admin, and the
stored secret_code is null for admins and the supplied value otherwise;
consequently a freshly created non-admin staff account never triggers
the forced-password-change gate. -/
theorem c10_add_user (hashFn : String → String) (form : AddUserForm) (db : DB)
    (hnodup : (db.staff.any (fun s => s.username == form.username) ||
      ((if form.is_admin then (Option.none : Option String) else form.secret_code).isSome &&
        db.staff.any (fun s =>
          s.secret_code == (if form.is_admin then (Option.none : Option String) else form.secret_code)))) = false) :
    (add_user_handler hashFn form db).db.staff =
      db.staff ++ [{ staff_id := db.next_staff_id
                     username := form.username
                     password_hash := hashFn form.password
                     full_name := form.full_name
                     is_admin := form.is_admin
                     secret_code := if form.is_admin then Option.none else form.secret_code
                     must_change_password := form.is_admin }] ∧
    (form.is_admin = true → (if form.is_admin then (Option.none : Option String) else form.secret_code) = Option.none) ∧
    (form.is_admin = false → (if form.is_admin then (Option.none : Option String) else form.secret_code) = form.secret_code) ∧
    (form.is_admin = false → ∀ ep : Option String,
      before_request_callback
        { id := db.next_staff_id, is_authenticated := true, is_admin := form.is_admin,
          must_change_password := form.is_admin } ep = Option.none) := by
  refine ⟨?_, ?_, ?_, ?_⟩
  · unfold add_user_handler
    rw [hnodup]
    simp
  · intro h; rw [h]; simp
  · intro h; rw [h]; simp
  · intro h ep
    unfold before_request_callback
    rw [h]
    simp

/-- Claim C10 witness: a concrete non-admin staff account created on
db0. -/
theorem c10_witness :
    (add_user_handler idHash newStaffForm db0).db.staff =
      db0.staff ++ [{ staff_id := db0.next_staff_id
                      username := newStaffForm.username
                      password_hash := idHash newStaffForm.password
                      full_name := newStaffForm.full_name
                      is_admin := newStaffForm.is_admin
                      secret_code := if newStaffForm.is_admin then Option.none else newStaffForm.secret_code
                      must_change_password := newStaffForm.is_admin }] ∧
    (newStaffForm.is_admin = true → (if newStaffForm.is_admin then (Option.none : Option String) else newStaffForm.secret_code) = Option.none) ∧
    (newStaffForm.is_admin = false → (if newStaffForm.is_admin then (Option.none : Option String) else newStaffForm.secret_code) = newStaffForm.secret_code) ∧
    (newStaffForm.is_admin = false → ∀ ep : Option String,
      before_request_callback
        { id := db0.next_staff_id, is_authenticated := true, is_admin := newStaffForm.is_admin,
          must_change_password := newStaffForm.is_admin } ep = Option.none) :=
  c10_add_user idHash newStaffForm db0 rfl

end BloodLink
